import Mathlib

/-!
Verification of the per-pixel spectral index computations and of the
line-block streaming pipeline of the espa-spectral-indices repository.

The C sources are shallowly embedded as follows.

* `int16` digital numbers are embedded as `Int`: C promotes `int16` to
  `int` before every comparison with the `int` parameters `fill_value`
  and `satu_value`, and none of the integer arithmetic in the sources
  can overflow `int`.
* `float`/`double` arithmetic is embedded exactly over `ℚ` (over `ℝ`
  where `sqrt` is involved), with the IEEE special values tracked
  explicitly by the `FP` wrapper: dividing a nonzero number by zero
  yields an infinity, dividing zero by zero yields NaN, and the square
  root of a negative argument yields NaN.  NaN compares false under
  `<`, `>` and `>=`, which the embedding reproduces by pattern matching.
* the C cast `(int16) x` truncates toward zero; casting NaN (or an
  infinity) to an integer type is undefined behaviour, so per-pixel
  results are `Option ℤ`, where `none` marks an undefined result.
  After the clamp to `[-1, 1]` every defined result of the quantization
  lies in `[-10000, 10000]` and hence fits `int16`, so no wrap-around
  modelling is needed on the defined path.
-/

/-- A floating-point value: either a finite number of the carrier field,
one of the two infinities, or NaN.  Exact finite arithmetic is used; the
wrapper only tracks how the special values arise and propagate. -/
inductive FP (α : Type) where
  | fin : α → FP α
  | pinf : FP α
  | ninf : FP α
  | nan : FP α
deriving DecidableEq

/-- IEEE division of two finite values: a nonzero value divided by zero
gives a signed infinity, zero divided by zero gives NaN. -/
def fdiv {α : Type} [LinearOrderedField α] (a b : α) : FP α :=
  if b = 0 then
    (if 0 < a then FP.pinf else if a < 0 then FP.ninf else FP.nan)
  else FP.fin (a / b)

/-- Negation on `FP`, used to state antisymmetry of the band ratio. -/
def fneg {α : Type} [LinearOrderedField α] : FP α → FP α
  | FP.fin q => FP.fin (-q)
  | FP.pinf => FP.ninf
  | FP.ninf => FP.pinf
  | FP.nan => FP.nan

/-- Multiplication by the positive constant `1 + L = 1.5` used by SAVI:
`(1.5) * +inf = +inf`, `1.5 * NaN = NaN`. -/
def fmul_three_halves {α : Type} [LinearOrderedField α] : FP α → FP α
  | FP.fin q => FP.fin (q * (3 / 2))
  | FP.pinf => FP.pinf
  | FP.ninf => FP.ninf
  | FP.nan => FP.nan

/-- The clamp from the C sources:
`if (ratio > 1.0) ratio = 1.0; else if (ratio < -1.0) ratio = -1.0;`.
`+inf > 1.0` holds so `+inf` clamps to `1.0`; `-inf` clamps to `-1.0`;
NaN compares false to both bounds and passes through unchanged. -/
def clampFP {α : Type} [LinearOrderedField α] : FP α → FP α
  | FP.fin q => if q > 1 then FP.fin 1 else if q < -1 then FP.fin (-1) else FP.fin q
  | FP.pinf => FP.fin 1
  | FP.ninf => FP.fin (-1)
  | FP.nan => FP.nan

/-- C conversion of a finite floating-point value to an integer type:
truncation toward zero. -/
def ftrunc {α : Type} [LinearOrderedField α] [FloorRing α] (x : α) : ℤ :=
  if 0 ≤ x then ⌊x⌋ else ⌈x⌉

/-- The quantization from the C sources, `FLOAT_TO_INT = 10000.0`:
`if (ratio >= 0.0) out = (int16)(ratio * FLOAT_TO_INT + 0.5);`
`else             out = (int16)(ratio * FLOAT_TO_INT - 0.5);`.
NaN fails the `>= 0.0` test and its cast to `int16` is undefined
behaviour, hence `none`; the infinities (which the preceding clamp never
produces) would likewise be undefined in the cast. -/
def quantFP {α : Type} [LinearOrderedField α] [FloorRing α] : FP α → Option ℤ
  | FP.fin q =>
      some (if 0 ≤ q then ftrunc (q * 10000 + 1 / 2) else ftrunc (q * 10000 - 1 / 2))
  | _ => none

/-- Output fill constant, `#define FILL_VALUE -9999` (output.h). -/
def FILL_VALUE : ℤ := -9999

/-- Output saturation constant, `#define SATURATE_VALUE 20000` (output.h). -/
def SATURATE_VALUE : ℤ := 20000

/-- The band ratio of `make_spectral_index`:
`ratio = (float)(band1[pix] - band2[pix]) / (float)(band1[pix] + band2[pix])`. -/
def make_spectral_index_ratio (b1 b2 : ℤ) : FP ℚ :=
  fdiv ((b1 : ℚ) - (b2 : ℚ)) ((b1 : ℚ) + (b2 : ℚ))

/-- Per-pixel body of `make_spectral_index` (make_spectral_index.c,
lines 47-70): fill check first, then saturation check, else ratio,
clamp and quantization. -/
def make_spectral_index_pixel (b1 b2 fill_value satu_value : ℤ) : Option ℤ :=
  if b1 = fill_value ∨ b2 = fill_value then some FILL_VALUE
  else if b1 = satu_value ∨ b2 = satu_value then some SATURATE_VALUE
  else quantFP (clampFP (make_spectral_index_ratio b1 b2))

/-- The SAVI ratio (make_spectral_index.c, lines 132-136), `L = 0.5`:
`ratio = ((nir_unscaled - red_unscaled) /
          (nir_unscaled + red_unscaled + L)) * (1.0 + L)`
with `nir_unscaled = nir * scale_factor`, `red_unscaled = red * scale_factor`. -/
def make_savi_ratio (nir red : ℤ) (scale_factor : ℚ) : FP ℚ :=
  fmul_three_halves
    (fdiv ((nir : ℚ) * scale_factor - (red : ℚ) * scale_factor)
          ((nir : ℚ) * scale_factor + (red : ℚ) * scale_factor + 1 / 2))

/-- Per-pixel body of `make_savi` (make_spectral_index.c, lines 124-149). -/
def make_savi_pixel (nir red : ℤ) (scale_factor : ℚ) (fill_value satu_value : ℤ) :
    Option ℤ :=
  if nir = fill_value ∨ red = fill_value then some FILL_VALUE
  else if nir = satu_value ∨ red = satu_value then some SATURATE_VALUE
  else quantFP (clampFP (make_savi_ratio nir red scale_factor))

/-- The EVI ratio (make_spectral_index.c, lines 300-305):
`ratio = (nir_unscaled - red_unscaled) /
         (nir_unscaled + 6.0 * red_unscaled - 7.5 * blue_unscaled + 1.0)`. -/
def make_evi_ratio (nir red blue : ℤ) (scale_factor : ℚ) : FP ℚ :=
  fdiv ((nir : ℚ) * scale_factor - (red : ℚ) * scale_factor)
       ((nir : ℚ) * scale_factor + 6 * ((red : ℚ) * scale_factor)
          - (15 / 2) * ((blue : ℚ) * scale_factor) + 1)

/-- Per-pixel body of `make_evi` (make_spectral_index.c, lines 290-318):
the fill and saturation checks range over all three bands. -/
def make_evi_pixel (nir red blue : ℤ) (scale_factor : ℚ) (fill_value satu_value : ℤ) :
    Option ℤ :=
  if nir = fill_value ∨ red = fill_value ∨ blue = fill_value then some FILL_VALUE
  else if nir = satu_value ∨ red = satu_value ∨ blue = satu_value then
    some SATURATE_VALUE
  else quantFP (clampFP (make_evi_ratio nir red blue scale_factor))

/-- The argument of `sqrt` in `make_modified_savi`
(make_spectral_index.c, lines 217-219):
`(2.0 * nir_unscaled + 1.0) * (2.0 * nir_unscaled + 1.0)
   - (8.0 * (nir_unscaled - red_unscaled))`.
It is a rational function of the inputs, so it is computed in `ℚ`. -/
def msavi_sqrt_arg (nir red : ℤ) (scale_factor : ℚ) : ℚ :=
  (2 * ((nir : ℚ) * scale_factor) + 1) * (2 * ((nir : ℚ) * scale_factor) + 1)
    - 8 * ((nir : ℚ) * scale_factor - (red : ℚ) * scale_factor)

/-- The MSAVI ratio (make_spectral_index.c, lines 217-219), `L = 0.5`:
`ratio = ((2.0 * nir_u + 1.0) - sqrt ((2.0*nir_u+1.0)*(2.0*nir_u+1.0)
          - (8.0 * (nir_u - red_u)))) * L`.
`sqrt` of a negative argument is NaN and NaN propagates through the
remaining arithmetic, hence the NaN case; otherwise the value is real
(`Real.sqrt` of a nonnegative rational is in general irrational, so
this one ratio lives in `FP ℝ`). -/
noncomputable def make_modified_savi_ratio (nir red : ℤ) (scale_factor : ℚ) : FP ℝ :=
  if msavi_sqrt_arg nir red scale_factor < 0 then FP.nan
  else
    FP.fin (((2 * (((nir : ℚ) * scale_factor : ℚ) : ℝ) + 1)
      - Real.sqrt ((msavi_sqrt_arg nir red scale_factor : ℚ) : ℝ)) * (1 / 2))

/-- Per-pixel body of `make_modified_savi` (make_spectral_index.c,
lines 206-232). -/
noncomputable def make_modified_savi_pixel (nir red : ℤ) (scale_factor : ℚ)
    (fill_value satu_value : ℤ) : Option ℤ :=
  if nir = fill_value ∨ red = fill_value then some FILL_VALUE
  else if nir = satu_value ∨ red = satu_value then some SATURATE_VALUE
  else quantFP (clampFP (make_modified_savi_ratio nir red scale_factor))

/-!
Array-level versions of the four index functions.  Each C function takes
pointers to the input band arrays and the output array and runs
`for (pix = 0; pix < nlines * nsamps; pix++) { ... out[pix] = ...; }`
where the only store in the loop body targets the output array.  The
embedding passes the arrays (as functions from pixel position) through
the call and returns the triple of arrays afterwards; `write_loop`
performs the sequential per-pixel stores.  Output cells hold `Option ℤ`
so that a cell whose store had an undefined value (NaN cast) is `none`,
as is every cell the loop never wrote.  The model assumes the output
buffer does not alias an input buffer, as at every call site.
-/

/-- Sequential stores `out[pix] := f pix` for `pix = 0, 1, ..., n-1`. -/
def write_loop (f : ℕ → Option ℤ) : ℕ → (ℕ → Option ℤ) → (ℕ → Option ℤ)
  | 0, out => out
  | n + 1, out => fun p => if p = n then f p else write_loop f n out p

/-- State of `make_spectral_index` after the call: both input band
arrays are returned unchanged and the output array has been written by
the pixel loop. -/
def make_spectral_index (band1 band2 : ℕ → ℤ) (fill_value satu_value : ℤ)
    (nlines nsamps : ℕ) (spec_indx : ℕ → Option ℤ) :
    (ℕ → ℤ) × (ℕ → ℤ) × (ℕ → Option ℤ) :=
  (band1, band2,
    write_loop (fun p => make_spectral_index_pixel (band1 p) (band2 p)
      fill_value satu_value) (nlines * nsamps) spec_indx)

/-- State of `make_savi` after the call. -/
def make_savi (nir red : ℕ → ℤ) (scale_factor : ℚ) (fill_value satu_value : ℤ)
    (nlines nsamps : ℕ) (savi : ℕ → Option ℤ) :
    (ℕ → ℤ) × (ℕ → ℤ) × (ℕ → Option ℤ) :=
  (nir, red,
    write_loop (fun p => make_savi_pixel (nir p) (red p) scale_factor
      fill_value satu_value) (nlines * nsamps) savi)

/-- State of `make_modified_savi` after the call. -/
noncomputable def make_modified_savi (nir red : ℕ → ℤ) (scale_factor : ℚ)
    (fill_value satu_value : ℤ) (nlines nsamps : ℕ) (msavi : ℕ → Option ℤ) :
    (ℕ → ℤ) × (ℕ → ℤ) × (ℕ → Option ℤ) :=
  (nir, red,
    write_loop (fun p => make_modified_savi_pixel (nir p) (red p) scale_factor
      fill_value satu_value) (nlines * nsamps) msavi)

/-- State of `make_evi` after the call (three input bands). -/
def make_evi (nir red blue : ℕ → ℤ) (scale_factor : ℚ) (fill_value satu_value : ℤ)
    (nlines nsamps : ℕ) (evi : ℕ → Option ℤ) :
    (ℕ → ℤ) × (ℕ → ℤ) × (ℕ → ℤ) × (ℕ → Option ℤ) :=
  (nir, red, blue,
    write_loop (fun p => make_evi_pixel (nir p) (red p) (blue p) scale_factor
      fill_value satu_value) (nlines * nsamps) evi)

/-!
The block iteration of the pipeline driver (spectral_indices.c, lines
455-463 of the HDF-era driver and the identical loop of the raw-binary
driver):
```
nlines_proc = PROC_NLINES;
for (line = 0; line < nlines; line += PROC_NLINES)
{
    if (line + nlines_proc >= nlines)
        nlines_proc = nlines - line;
    ...one read per reflectance band and one write per output band,
       each of nlines_proc lines starting at line...
}
```
`si_blocks nlines` returns the list of `(line, nlines_proc)` pairs of
the successive iterations; each pair corresponds to exactly one
`get_input_refl_lines` call per input band and one `put_output_line`
call per output band.  The loop is embedded with a fuel argument for
structural recursion; `nlines` iterations of fuel suffice because the
loop runs at most `⌈nlines / 1000⌉ ≤ nlines` times.
-/

/-- Block size constant, `#define PROC_NLINES 1000`. -/
def PROC_NLINES : ℕ := 1000

/-- One driver loop: `line` is the current offset, `proc` the current
`nlines_proc` value. -/
def si_block_loop : ℕ → ℕ → ℕ → ℕ → List (ℕ × ℕ)
  | 0, _, _, _ => []
  | fuel + 1, nlines, line, proc =>
      if line < nlines then
        (line, if nlines ≤ line + proc then nlines - line else proc) ::
          si_block_loop fuel nlines (line + PROC_NLINES)
            (if nlines ≤ line + proc then nlines - line else proc)
      else []

/-- The `(offset, height)` pairs of the block iterations of the driver
for an image of `nlines` lines. -/
def si_blocks (nlines : ℕ) : List (ℕ × ℕ) :=
  si_block_loop nlines nlines 0 PROC_NLINES

/-- The list of blocks tiles the line range `[lo, hi)`: the first block
starts at `lo`, every block is nonempty and stays inside the range, each
following block starts exactly where the previous one ended, and the
last block ends exactly at `hi` — no gaps and no overlaps. -/
def tiles : ℕ → ℕ → List (ℕ × ℕ) → Prop
  | lo, hi, [] => lo = hi
  | lo, hi, (o, h) :: rest => o = lo ∧ 0 < h ∧ lo + h ≤ hi ∧ tiles (lo + h) hi rest

/-!
The line-block writer `put_output_line` (output.c, lines 417-476).  The
fields of `Output_t` used by the parameter checks are embedded; `open`
is the flag set by `open_output` and `size.l`/`size.s` are the
dimensions declared at open time and never modified afterwards.  On the
success path the function writes the slab `[iline, iline + nlines)` of
band `iband` via `SDwritedata`; the external HDF write is modelled as
succeeding, and the returned value is the written slab description
`(iband, iline, nlines)`.  An `Except.error` return carries no write. -/
structure Output_t where
  opened : Bool
  nband : ℤ
  nlines : ℤ
  nsamps : ℤ

/-- Parameter checks and write of `put_output_line` (output.c).  The
checks are, in source order: structure open, band index in
`[0, nband)`, line in `[0, size.l)`, and
`nlines < 0 || iline + nlines > size.l`. -/
def put_output_line (this : Output_t) (iband iline nlines : ℤ) :
    Except String (ℤ × ℤ × ℤ) :=
  if this.opened = false then Except.error "File is not open.  Cannot write data."
  else if iband < 0 ∨ this.nband ≤ iband then Except.error "Invalid band number."
  else if iline < 0 ∨ this.nlines ≤ iline then Except.error "Invalid line number."
  else if nlines < 0 ∨ this.nlines < iline + nlines then
    Except.error "Line plus number of lines to be written exceeds the predefined size of the image."
  else Except.ok (iband, iline, nlines)

/-!
The line-block reader `get_input_refl_lines` (input.c of the raw-binary
era).  Its parameter checks (structure open, `0 <= iband < nrefl_band`,
`0 <= iline < nlines`) are embedded from the source.  After the checks
the function seeks to byte offset `iline * nsamps * sizeof(int16)` and
calls `read_raw_binary (fp, nlines, nsamps, sizeof(int16), buf)`.  The
band file is modelled as the list of its `int16` samples in row-major
order; the seek plus read becomes a drop plus take on that list. -/
structure Input_t where
  refl_open : Bool
  nrefl_band : ℤ
  nlines : ℤ
  nsamps : ℤ
  /-- contents of the open band files, one sample list per band -/
  fp_bin : ℤ → List ℤ

/-- Modelled from the spec: `read_raw_binary` belongs to the external
raw-binary container library and is not among the sources; per the spec
of the reader, "No partial-block success — either the full requested
slab is read or the call fails."  Reading `count` elements at element
position `pos` of a stream succeeds exactly when the stream holds
`count` elements from that position on, and then returns all of them. -/
def read_raw_binary (stream : List ℤ) (pos count : ℕ) : Option (List ℤ) :=
  if ((stream.drop pos).take count).length = count
  then some ((stream.drop pos).take count)
  else none

/-- Parameter checks, seek and read of `get_input_refl_lines`.  On
success the returned list is the slab read into `refl_buf[iband]`. -/
def get_input_refl_lines (this : Input_t) (iband iline nlines : ℤ) :
    Except String (List ℤ) :=
  if this.refl_open = false then
    Except.error "Reflectance file has not been opened"
  else if iband < 0 ∨ this.nrefl_band ≤ iband then
    Except.error "Invalid band number for the reflectance file"
  else if iline < 0 ∨ this.nlines ≤ iline then
    Except.error "Invalid line number for reflectance band"
  else
    match read_raw_binary (this.fp_bin iband) (iline * this.nsamps).toNat
        (nlines * this.nsamps).toNat with
    | some buf => Except.ok buf
    | none => Except.error "Reading lines from reflectance band"

/-- Modelled from the spec: quantization of a ratio already scaled by
`FLOAT_TO_INT`, in the spec's words "round-half-away-from-zero": add
`0.5` and round down for a non-negative value, subtract `0.5` and round
up for a negative one.  Stated independently of the source's
truncating-cast formulation, to be compared with it. -/
def roundHalfAway {α : Type} [LinearOrderedField α] [FloorRing α] (x : α) : ℤ :=
  if 0 ≤ x then ⌊x + 1 / 2⌋ else ⌈x - 1 / 2⌉

/-- Modelled from the spec: the clamp described as restricting the raw
ratio to the interval `[-1, 1]`, i.e. `max (-1) (min 1 q)`. -/
def clampSpec {α : Type} [LinearOrderedField α] (q : α) : α :=
  max (-1) (min 1 q)

/-- When the ratio is not NaN, the clamp returns a finite value in
`[-1, 1]`. -/
lemma clampFP_ne_nan {α : Type} [LinearOrderedField α] (r : FP α) (h : r ≠ FP.nan) :
    ∃ c, clampFP r = FP.fin c ∧ -1 ≤ c ∧ c ≤ 1 := by
  cases r with
  | fin q =>
      by_cases h1 : q > 1
      · exact ⟨1, by simp [clampFP, if_pos h1], by norm_num, le_refl 1⟩
      · by_cases h2 : q < -1
        · exact ⟨-1, by simp [clampFP, h1, if_pos h2], le_refl (-1), by norm_num⟩
        · exact ⟨q, by simp [clampFP, h1, h2], by linarith [not_lt.mp h2],
            by linarith [not_lt.mp h1]⟩
  | pinf => exact ⟨1, rfl, by norm_num, le_refl 1⟩
  | ninf => exact ⟨-1, rfl, le_refl (-1), by norm_num⟩
  | nan => exact absurd rfl h

/-- Quantization of a finite value in `[-1, 1]` yields an integer in
`[-10000, 10000]`. -/
lemma quantFP_fin_range {α : Type} [LinearOrderedField α] [FloorRing α] (c : α)
    (hl : -1 ≤ c) (hu : c ≤ 1) :
    ∃ v, quantFP (FP.fin c) = some v ∧ -10000 ≤ v ∧ v ≤ 10000 := by
  by_cases hc : 0 ≤ c
  · refine ⟨⌊c * 10000 + 1 / 2⌋, ?_, ?_, ?_⟩
    · rw [quantFP, if_pos hc, ftrunc, if_pos (by linarith : (0 : α) ≤ c * 10000 + 1 / 2)]
    · have : ((-10000 : ℤ) : α) ≤ c * 10000 + 1 / 2 := by push_cast; linarith
      exact Int.le_floor.mpr this
    · have : c * 10000 + 1 / 2 < ((10001 : ℤ) : α) := by push_cast; linarith
      have := Int.floor_lt.mpr this
      omega
  · have hc' : c < 0 := not_le.mp hc
    refine ⟨⌈c * 10000 - 1 / 2⌉, ?_, ?_, ?_⟩
    · rw [quantFP, if_neg hc, ftrunc,
        if_neg (by push_neg; linarith : ¬ (0 : α) ≤ c * 10000 - 1 / 2)]
    · have : ((-10001 : ℤ) : α) < c * 10000 - 1 / 2 := by push_cast; linarith
      have := Int.lt_ceil.mpr this
      omega
    · have : c * 10000 - 1 / 2 ≤ ((10000 : ℤ) : α) := by push_cast; linarith
      exact Int.ceil_le.mpr this

/-- For a non-NaN ratio, clamp followed by quantization is defined and
lands in `[-10000, 10000]`. -/
lemma quantFP_clampFP_range {α : Type} [LinearOrderedField α] [FloorRing α]
    (r : FP α) (h : r ≠ FP.nan) :
    ∃ v, quantFP (clampFP r) = some v ∧ -10000 ≤ v ∧ v ≤ 10000 := by
  obtain ⟨c, hc, hl, hu⟩ := clampFP_ne_nan r h
  obtain ⟨v, hv, hvl, hvu⟩ := quantFP_fin_range c hl hu
  exact ⟨v, by rw [hc]; exact hv, hvl, hvu⟩

/-- The source's truncating quantization of a finite clamped value
agrees with the spec's round-half-away-from-zero of the ratio scaled by
`10000`. -/
lemma quantFP_fin_roundHalfAway {α : Type} [LinearOrderedField α] [FloorRing α]
    (c : α) : quantFP (FP.fin c) = some (roundHalfAway (c * 10000)) := by
  by_cases h : 0 ≤ c
  · have hx : (0 : α) ≤ c * 10000 := by nlinarith
    rw [quantFP, if_pos h, roundHalfAway, if_pos hx, ftrunc,
      if_pos (by linarith : (0 : α) ≤ c * 10000 + 1 / 2)]
  · have hc : c < 0 := not_le.mp h
    have hx : ¬ (0 : α) ≤ c * 10000 := by push_neg; nlinarith
    rw [quantFP, if_neg h, roundHalfAway, if_neg hx, ftrunc,
      if_neg (by push_neg; nlinarith : ¬ (0 : α) ≤ c * 10000 - 1 / 2)]

/-- The source's clamp on a finite value agrees with the spec's
restriction to the interval `[-1, 1]`. -/
lemma clampFP_fin_clampSpec {α : Type} [LinearOrderedField α] (q : α) :
    clampFP (FP.fin q) = FP.fin (clampSpec q) := by
  simp only [clampFP, clampSpec]
  by_cases h1 : q > 1
  · rw [if_pos h1, min_eq_left (le_of_lt h1), max_eq_right (by linarith : (-1 : α) ≤ 1)]
  · rw [if_neg h1]
    by_cases h2 : q < -1
    · rw [if_pos h2, min_eq_right (by linarith : q ≤ 1), max_eq_left (le_of_lt h2)]
    · rw [if_neg h2, min_eq_right (not_lt.mp h1), max_eq_right (not_lt.mp h2)]

/-- Truncation toward zero is odd. -/
lemma ftrunc_neg {α : Type} [LinearOrderedField α] [FloorRing α] (x : α) :
    ftrunc (-x) = -ftrunc x := by
  rcases lt_trichotomy x 0 with h | h | h
  · rw [ftrunc, if_pos (by linarith : (0 : α) ≤ -x), Int.floor_neg, ftrunc,
      if_neg (not_le.mpr h)]
  · subst h; simp [ftrunc]
  · rw [ftrunc, if_neg (by push_neg; linarith : ¬ (0 : α) ≤ -x), Int.ceil_neg, ftrunc,
      if_pos (le_of_lt h)]

/-- Negating the numerator negates the IEEE quotient. -/
lemma fdiv_neg {α : Type} [LinearOrderedField α] (a b : α) :
    fdiv (-a) b = fneg (fdiv a b) := by
  by_cases hb : b = 0
  · rw [fdiv, fdiv, if_pos hb, if_pos hb]
    rcases lt_trichotomy a 0 with h | h | h
    · rw [if_pos (by linarith : 0 < -a), if_neg (not_lt.mpr (le_of_lt h)), if_pos h]
      rfl
    · subst h
      rw [neg_zero, if_neg (lt_irrefl 0), if_neg (lt_irrefl 0)]
      rfl
    · rw [if_neg (by push_neg; linarith : ¬ 0 < -a), if_pos (by linarith : -a < 0),
        if_pos h]
      rfl
  · rw [fdiv, fdiv, if_neg hb, if_neg hb, neg_div]
    rfl

/-- The clamp commutes with negation. -/
lemma clampFP_fneg {α : Type} [LinearOrderedField α] (r : FP α) :
    clampFP (fneg r) = fneg (clampFP r) := by
  cases r with
  | fin q =>
      by_cases h1 : q > 1
      · rw [fneg, clampFP, if_neg (by push_neg; linarith : ¬ -q > 1),
          if_pos (by linarith : -q < -1), clampFP, if_pos h1]
        rfl
      · by_cases h2 : q < -1
        · rw [fneg, clampFP, if_pos (by linarith : -q > 1), clampFP, if_neg h1, if_pos h2]
          simp [fneg]
        · rw [fneg, clampFP, if_neg (by push_neg; linarith [not_lt.mp h2] : ¬ -q > 1),
            if_neg (by push_neg; linarith [not_lt.mp h1] : ¬ -q < -1),
            clampFP, if_neg h1, if_neg h2]
          rfl
  | pinf => simp [fneg, clampFP]
  | ninf => simp [fneg, clampFP]
  | nan => rfl

/-- The quantization maps a negated value to the negated result. -/
lemma quantFP_fneg {α : Type} [LinearOrderedField α] [FloorRing α] (r : FP α) :
    quantFP (fneg r) = (quantFP r).map (fun v => -v) := by
  cases r with
  | fin q =>
      rcases lt_trichotomy q 0 with h | h | h
      · rw [fneg, quantFP, if_pos (by linarith : (0 : α) ≤ -q), quantFP,
          if_neg (not_le.mpr h)]
        have : -q * 10000 + 1 / 2 = -(q * 10000 - 1 / 2) := by ring
        rw [this, ftrunc_neg]
        rfl
      · subst h
        simp [fneg, quantFP, ftrunc, Int.floor_eq_zero_iff]
        norm_num
      · rw [fneg, quantFP, if_neg (by push_neg; linarith : ¬ (0 : α) ≤ -q), quantFP,
          if_pos (le_of_lt h)]
        have : -q * 10000 - 1 / 2 = -(q * 10000 + 1 / 2) := by ring
        rw [this, ftrunc_neg]
        rfl
  | pinf => rfl
  | ninf => rfl
  | nan => rfl

/-- Fill branch of `make_spectral_index`. -/
lemma make_spectral_index_pixel_fill {b1 b2 fv sv : ℤ} (h : b1 = fv ∨ b2 = fv) :
    make_spectral_index_pixel b1 b2 fv sv = some FILL_VALUE := by
  rw [make_spectral_index_pixel, if_pos h]

/-- Saturation branch of `make_spectral_index`. -/
lemma make_spectral_index_pixel_satu {b1 b2 fv sv : ℤ} (h1 : ¬ (b1 = fv ∨ b2 = fv))
    (h2 : b1 = sv ∨ b2 = sv) :
    make_spectral_index_pixel b1 b2 fv sv = some SATURATE_VALUE := by
  rw [make_spectral_index_pixel, if_neg h1, if_pos h2]

/-- Valid branch of `make_spectral_index`. -/
lemma make_spectral_index_pixel_valid {b1 b2 fv sv : ℤ} (h1 : ¬ (b1 = fv ∨ b2 = fv))
    (h2 : ¬ (b1 = sv ∨ b2 = sv)) :
    make_spectral_index_pixel b1 b2 fv sv =
      quantFP (clampFP (make_spectral_index_ratio b1 b2)) := by
  rw [make_spectral_index_pixel, if_neg h1, if_neg h2]

/-- Fill branch of `make_savi`. -/
lemma make_savi_pixel_fill {nir red fv sv : ℤ} {sf : ℚ} (h : nir = fv ∨ red = fv) :
    make_savi_pixel nir red sf fv sv = some FILL_VALUE := by
  rw [make_savi_pixel, if_pos h]

/-- Saturation branch of `make_savi`. -/
lemma make_savi_pixel_satu {nir red fv sv : ℤ} {sf : ℚ} (h1 : ¬ (nir = fv ∨ red = fv))
    (h2 : nir = sv ∨ red = sv) :
    make_savi_pixel nir red sf fv sv = some SATURATE_VALUE := by
  rw [make_savi_pixel, if_neg h1, if_pos h2]

/-- Valid branch of `make_savi`. -/
lemma make_savi_pixel_valid {nir red fv sv : ℤ} {sf : ℚ} (h1 : ¬ (nir = fv ∨ red = fv))
    (h2 : ¬ (nir = sv ∨ red = sv)) :
    make_savi_pixel nir red sf fv sv = quantFP (clampFP (make_savi_ratio nir red sf)) := by
  rw [make_savi_pixel, if_neg h1, if_neg h2]

/-- Fill branch of `make_modified_savi`. -/
lemma make_modified_savi_pixel_fill {nir red fv sv : ℤ} {sf : ℚ}
    (h : nir = fv ∨ red = fv) :
    make_modified_savi_pixel nir red sf fv sv = some FILL_VALUE := by
  rw [make_modified_savi_pixel, if_pos h]

/-- Saturation branch of `make_modified_savi`. -/
lemma make_modified_savi_pixel_satu {nir red fv sv : ℤ} {sf : ℚ}
    (h1 : ¬ (nir = fv ∨ red = fv)) (h2 : nir = sv ∨ red = sv) :
    make_modified_savi_pixel nir red sf fv sv = some SATURATE_VALUE := by
  rw [make_modified_savi_pixel, if_neg h1, if_pos h2]

/-- Valid branch of `make_modified_savi`. -/
lemma make_modified_savi_pixel_valid {nir red fv sv : ℤ} {sf : ℚ}
    (h1 : ¬ (nir = fv ∨ red = fv)) (h2 : ¬ (nir = sv ∨ red = sv)) :
    make_modified_savi_pixel nir red sf fv sv =
      quantFP (clampFP (make_modified_savi_ratio nir red sf)) := by
  rw [make_modified_savi_pixel, if_neg h1, if_neg h2]

/-- Fill branch of `make_evi`. -/
lemma make_evi_pixel_fill {nir red blue fv sv : ℤ} {sf : ℚ}
    (h : nir = fv ∨ red = fv ∨ blue = fv) :
    make_evi_pixel nir red blue sf fv sv = some FILL_VALUE := by
  rw [make_evi_pixel, if_pos h]

/-- Saturation branch of `make_evi`. -/
lemma make_evi_pixel_satu {nir red blue fv sv : ℤ} {sf : ℚ}
    (h1 : ¬ (nir = fv ∨ red = fv ∨ blue = fv)) (h2 : nir = sv ∨ red = sv ∨ blue = sv) :
    make_evi_pixel nir red blue sf fv sv = some SATURATE_VALUE := by
  rw [make_evi_pixel, if_neg h1, if_pos h2]

/-- Valid branch of `make_evi`. -/
lemma make_evi_pixel_valid {nir red blue fv sv : ℤ} {sf : ℚ}
    (h1 : ¬ (nir = fv ∨ red = fv ∨ blue = fv)) (h2 : ¬ (nir = sv ∨ red = sv ∨ blue = sv)) :
    make_evi_pixel nir red blue sf fv sv =
      quantFP (clampFP (make_evi_ratio nir red blue sf)) := by
  rw [make_evi_pixel, if_neg h1, if_neg h2]

/-- The sequential store loop acts pointwise: position `p` holds `f p`
after the loop if `p` was in range, and its previous content otherwise. -/
lemma write_loop_eq (f : ℕ → Option ℤ) (n : ℕ) (out : ℕ → Option ℤ) (p : ℕ) :
    write_loop f n out p = if p < n then f p else out p := by
  induction n with
  | zero => rw [write_loop, if_neg (Nat.not_lt_zero p)]
  | succ n ih =>
      simp only [write_loop]
      by_cases hp : p = n
      · subst hp
        rw [if_pos rfl, if_pos (Nat.lt_succ_self p)]
      · rw [if_neg hp, ih]
        by_cases h2 : p < n
        · rw [if_pos h2, if_pos (Nat.lt_succ_of_lt h2)]
        · rw [if_neg h2, if_neg (by omega)]

/-- The driver loop body is skipped entirely once `line` reaches the
image height, whatever fuel and `nlines_proc` remain. -/
lemma si_block_loop_nil (fuel nlines line proc : ℕ) (h : ¬ line < nlines) :
    si_block_loop fuel nlines line proc = [] := by
  cases fuel with
  | zero => rfl
  | succ fuel => rw [si_block_loop, if_neg h]

/-- With `nlines_proc = PROC_NLINES` on entry and enough fuel, the
driver loop tiles the remaining line range `[line, nlines)`. -/
lemma si_block_loop_tiles (fuel : ℕ) : ∀ line : ℕ, ∀ nlines : ℕ, line ≤ nlines →
    nlines - line ≤ PROC_NLINES * fuel →
    tiles line nlines (si_block_loop fuel nlines line PROC_NLINES) := by
  induction fuel with
  | zero =>
      intro line nlines hle hfuel
      rw [si_block_loop]
      have : line = nlines := by omega
      exact this
  | succ fuel ih =>
      intro line nlines hle hfuel
      by_cases h : line < nlines
      · rw [si_block_loop, if_pos h]
        by_cases htr : nlines ≤ line + PROC_NLINES
        · rw [if_pos htr, si_block_loop_nil fuel nlines (line + PROC_NLINES) _ (by omega)]
          refine ⟨rfl, by omega, by omega, ?_⟩
          show tiles (line + (nlines - line)) nlines []
          have : line + (nlines - line) = nlines := by omega
          rw [this]
          exact rfl
        · rw [if_neg htr]
          refine ⟨rfl, by norm_num [PROC_NLINES], by omega, ?_⟩
          exact ih (line + PROC_NLINES) nlines (by omega)
            (by simp only [PROC_NLINES] at hfuel ⊢; omega)
      · rw [si_block_loop_nil _ _ _ _ h]
        have : line = nlines := by omega
        exact this

/-- Every block the driver loop produces starts at a multiple of the
block size and has height `min PROC_NLINES (remaining lines)`. -/
lemma si_block_loop_mem (fuel : ℕ) : ∀ line : ℕ, ∀ nlines : ℕ, ∀ o h : ℕ,
    PROC_NLINES ∣ line →
    (o, h) ∈ si_block_loop fuel nlines line PROC_NLINES →
    PROC_NLINES ∣ o ∧ h = min PROC_NLINES (nlines - o) := by
  induction fuel with
  | zero =>
      intro line nlines o h _ hmem
      rw [si_block_loop] at hmem
      exact absurd hmem (List.not_mem_nil _)
  | succ fuel ih =>
      intro line nlines o h hdvd hmem
      by_cases hlt : line < nlines
      · rw [si_block_loop, if_pos hlt] at hmem
        rcases List.mem_cons.mp hmem with heq | htail
        · have ho : o = line := (Prod.mk.injEq _ _ _ _ ▸ heq).1
          have hh : h = if nlines ≤ line + PROC_NLINES then nlines - line
              else PROC_NLINES := (Prod.mk.injEq _ _ _ _ ▸ heq).2
          subst ho
          refine ⟨hdvd, ?_⟩
          by_cases htr : nlines ≤ o + PROC_NLINES
          · rw [hh, if_pos htr]
            omega
          · rw [hh, if_neg htr]
            omega
        · by_cases htr : nlines ≤ line + PROC_NLINES
          · rw [if_pos htr, si_block_loop_nil fuel nlines (line + PROC_NLINES) _
              (by omega)] at htail
            exact absurd htail (List.not_mem_nil _)
          · rw [if_neg htr] at htail
            exact ih (line + PROC_NLINES) nlines o h (Dvd.dvd.add hdvd dvd_rfl) htail
      · rw [si_block_loop_nil _ _ _ _ hlt] at hmem
        exact absurd hmem (List.not_mem_nil _)

/-- C1: for every pixel and every index function (`make_spectral_index`,
`make_savi`, `make_modified_savi`, `make_evi`), if any required input
band value equals the supplied fill value, the output pixel equals the
fixed constant `-9999`, regardless of the values of the other input
bands and regardless of what the input fill value is. -/
theorem C1_fill_propagates :
    (∀ b1 b2 fv sv : ℤ, (b1 = fv ∨ b2 = fv) →
      make_spectral_index_pixel b1 b2 fv sv = some (-9999)) ∧
    (∀ (nir red fv sv : ℤ) (sf : ℚ), (nir = fv ∨ red = fv) →
      make_savi_pixel nir red sf fv sv = some (-9999)) ∧
    (∀ (nir red fv sv : ℤ) (sf : ℚ), (nir = fv ∨ red = fv) →
      make_modified_savi_pixel nir red sf fv sv = some (-9999)) ∧
    (∀ (nir red blue fv sv : ℤ) (sf : ℚ), (nir = fv ∨ red = fv ∨ blue = fv) →
      make_evi_pixel nir red blue sf fv sv = some (-9999)) := by
  refine ⟨?_, ?_, ?_, ?_⟩
  · intro b1 b2 fv sv h
    exact make_spectral_index_pixel_fill h
  · intro nir red fv sv sf h
    exact make_savi_pixel_fill h
  · intro nir red fv sv sf h
    exact make_modified_savi_pixel_fill h
  · intro nir red blue fv sv sf h
    exact make_evi_pixel_fill h

/-- Witness for C1 at concrete pixels: the nir band carries the fill
value (`-9999` for three of the functions, the nonstandard fill value
`77` for SAVI to witness independence from the input fill value). -/
theorem C1_fill_propagates_witness :
    make_spectral_index_pixel (-9999) 3000 (-9999) 20000 = some (-9999) ∧
    make_savi_pixel 77 3000 (1 / 10000) 77 20000 = some (-9999) ∧
    make_modified_savi_pixel (-9999) 3000 (1 / 10000) (-9999) 20000 = some (-9999) ∧
    make_evi_pixel 5000 (-9999) 2000 (1 / 10000) (-9999) 20000 = some (-9999) :=
  ⟨C1_fill_propagates.1 (-9999) 3000 (-9999) 20000 (Or.inl rfl),
   C1_fill_propagates.2.1 77 3000 77 20000 (1 / 10000) (Or.inl rfl),
   C1_fill_propagates.2.2.1 (-9999) 3000 (-9999) 20000 (1 / 10000) (Or.inl rfl),
   C1_fill_propagates.2.2.2 5000 (-9999) 2000 (-9999) 20000 (1 / 10000)
     (Or.inr (Or.inl rfl))⟩

/-- C2: for every pixel where no required input band equals the fill
value but at least one equals the saturation value, the output equals
the fixed constant `20000`; and since the fill condition is tested
before the saturation condition, a pixel satisfying both conditions
yields `-9999`, not `20000`.  Both statements are proved for all four
index functions. -/
theorem C2_saturate_after_fill :
    ((∀ b1 b2 fv sv : ℤ, ¬ (b1 = fv ∨ b2 = fv) → (b1 = sv ∨ b2 = sv) →
        make_spectral_index_pixel b1 b2 fv sv = some 20000) ∧
     (∀ (nir red fv sv : ℤ) (sf : ℚ), ¬ (nir = fv ∨ red = fv) → (nir = sv ∨ red = sv) →
        make_savi_pixel nir red sf fv sv = some 20000) ∧
     (∀ (nir red fv sv : ℤ) (sf : ℚ), ¬ (nir = fv ∨ red = fv) → (nir = sv ∨ red = sv) →
        make_modified_savi_pixel nir red sf fv sv = some 20000) ∧
     (∀ (nir red blue fv sv : ℤ) (sf : ℚ), ¬ (nir = fv ∨ red = fv ∨ blue = fv) →
        (nir = sv ∨ red = sv ∨ blue = sv) →
        make_evi_pixel nir red blue sf fv sv = some 20000)) ∧
    ((∀ b1 b2 fv sv : ℤ, (b1 = fv ∨ b2 = fv) → (b1 = sv ∨ b2 = sv) →
        make_spectral_index_pixel b1 b2 fv sv = some (-9999)) ∧
     (∀ (nir red fv sv : ℤ) (sf : ℚ), (nir = fv ∨ red = fv) → (nir = sv ∨ red = sv) →
        make_savi_pixel nir red sf fv sv = some (-9999)) ∧
     (∀ (nir red fv sv : ℤ) (sf : ℚ), (nir = fv ∨ red = fv) → (nir = sv ∨ red = sv) →
        make_modified_savi_pixel nir red sf fv sv = some (-9999)) ∧
     (∀ (nir red blue fv sv : ℤ) (sf : ℚ), (nir = fv ∨ red = fv ∨ blue = fv) →
        (nir = sv ∨ red = sv ∨ blue = sv) →
        make_evi_pixel nir red blue sf fv sv = some (-9999))) := by
  refine ⟨⟨?_, ?_, ?_, ?_⟩, ⟨?_, ?_, ?_, ?_⟩⟩
  · intro b1 b2 fv sv h1 h2
    exact make_spectral_index_pixel_satu h1 h2
  · intro nir red fv sv sf h1 h2
    exact make_savi_pixel_satu h1 h2
  · intro nir red fv sv sf h1 h2
    exact make_modified_savi_pixel_satu h1 h2
  · intro nir red blue fv sv sf h1 h2
    exact make_evi_pixel_satu h1 h2
  · intro b1 b2 fv sv h1 _
    exact make_spectral_index_pixel_fill h1
  · intro nir red fv sv sf h1 _
    exact make_savi_pixel_fill h1
  · intro nir red fv sv sf h1 _
    exact make_modified_savi_pixel_fill h1
  · intro nir red blue fv sv sf h1 _
    exact make_evi_pixel_fill h1

/-- Witness for C2: the spec scenario `nir = 20000` (saturated),
`red = 3000` on each function, and a pixel that is both fill and
saturated (`fill = satu = 20000`, `nir = 20000`) yielding `-9999`. -/
theorem C2_saturate_after_fill_witness :
    make_spectral_index_pixel 20000 3000 (-9999) 20000 = some 20000 ∧
    make_savi_pixel 20000 3000 (1 / 10000) (-9999) 20000 = some 20000 ∧
    make_modified_savi_pixel 20000 3000 (1 / 10000) (-9999) 20000 = some 20000 ∧
    make_evi_pixel 20000 3000 2000 (1 / 10000) (-9999) 20000 = some 20000 ∧
    make_spectral_index_pixel 20000 3000 20000 20000 = some (-9999) :=
  ⟨C2_saturate_after_fill.1.1 20000 3000 (-9999) 20000 (by decide) (Or.inl rfl),
   C2_saturate_after_fill.1.2.1 20000 3000 (-9999) 20000 (1 / 10000) (by decide)
     (Or.inl rfl),
   C2_saturate_after_fill.1.2.2.1 20000 3000 (-9999) 20000 (1 / 10000) (by decide)
     (Or.inl rfl),
   C2_saturate_after_fill.1.2.2.2 20000 3000 2000 (-9999) 20000 (1 / 10000) (by decide)
     (Or.inl rfl),
   C2_saturate_after_fill.2.1 20000 3000 20000 20000 (Or.inl rfl) (Or.inl rfl)⟩

/-- Concrete evaluation: the normalized-difference ratio of the spec
scenario `nir = 5000`, `red = 3000`. -/
lemma spectral_ratio_5000_3000 : make_spectral_index_ratio 5000 3000 = FP.fin (1 / 4) := by
  norm_num [make_spectral_index_ratio, fdiv]

/-- The scenario ratio is a number, not NaN. -/
lemma spectral_ratio_5000_3000_ne_nan : make_spectral_index_ratio 5000 3000 ≠ FP.nan := by
  rw [spectral_ratio_5000_3000]
  exact fun h => FP.noConfusion h

/-- Concrete evaluation: the SAVI ratio of the spec scenario
`nir = 4000`, `red = 2000`, `scale_factor = 0.0001`: the unscaled values
are `0.4` and `0.2` and the ratio is `(0.2 / 1.1) * 1.5 = 3/11`. -/
lemma savi_ratio_4000_2000 : make_savi_ratio 4000 2000 (1 / 10000) = FP.fin (3 / 11) := by
  norm_num [make_savi_ratio, fdiv, fmul_three_halves]

/-- The scenario SAVI ratio is a number, not NaN. -/
lemma savi_ratio_4000_2000_ne_nan : make_savi_ratio 4000 2000 (1 / 10000) ≠ FP.nan := by
  rw [savi_ratio_4000_2000]
  exact fun h => FP.noConfusion h

/-- Concrete evaluation: a `0/0` SAVI pixel.  With
`scale_factor = 0.0001` and `nir = red = -2500` the unscaled bands are
both `-0.25`, so the numerator is `0` and the denominator
`-0.25 - 0.25 + 0.5` is also `0`: the float quotient is NaN. -/
lemma savi_ratio_neg2500 : make_savi_ratio (-2500) (-2500) (1 / 10000) = FP.nan := by
  norm_num [make_savi_ratio, fdiv, fmul_three_halves]

/-- Concrete evaluation: the EVI ratio at `nir = 5000`, `red = 3000`,
`blue = 2000`, `scale_factor = 0.0001` is `0.2 / 1.8 = 1/9`. -/
lemma evi_ratio_5000_3000_2000 :
    make_evi_ratio 5000 3000 2000 (1 / 10000) = FP.fin (1 / 9) := by
  norm_num [make_evi_ratio, fdiv]

/-- The scenario EVI ratio is a number, not NaN. -/
lemma evi_ratio_5000_3000_2000_ne_nan :
    make_evi_ratio 5000 3000 2000 (1 / 10000) ≠ FP.nan := by
  rw [evi_ratio_5000_3000_2000]
  exact fun h => FP.noConfusion h

/-- The MSAVI ratio at `nir = 4000`, `red = 2000`,
`scale_factor = 0.0001` is a number, not NaN: the `sqrt` argument is
`(9/5)^2 - 8/5 = 41/25 ≥ 0`. -/
lemma msavi_ratio_4000_2000_ne_nan :
    make_modified_savi_ratio 4000 2000 (1 / 10000) ≠ FP.nan := by
  rw [make_modified_savi_ratio,
    if_neg (by norm_num [msavi_sqrt_arg] : ¬ msavi_sqrt_arg 4000 2000 (1 / 10000) < 0)]
  exact fun h => FP.noConfusion h

/-- C3 counterexample: the pixel `band1 = band2 = 0` is valid for the
usual `fill = -9999`, `satu = 20000`, yet the float ratio is `0/0`
(NaN), the clamp leaves NaN in place, and the `int16` cast of NaN is
undefined behaviour — the output is not an integer of `[-10000, 10000]`
(nor any defined integer at all). -/
theorem C3_output_range_counterexample :
    make_spectral_index_pixel 0 0 (-9999) 20000 = none ∧
    ¬ ∃ v : ℤ, make_spectral_index_pixel 0 0 (-9999) 20000 = some v ∧
      -10000 ≤ v ∧ v ≤ 10000 := by
  have h : make_spectral_index_pixel 0 0 (-9999) 20000 = none := by
    norm_num [make_spectral_index_pixel, make_spectral_index_ratio, fdiv, clampFP,
      quantFP]
  refine ⟨h, ?_⟩
  rintro ⟨v, hv, -, -⟩
  rw [h] at hv
  exact Option.noConfusion hv

/-- C3 (amended): for every pixel whose required input bands are all
valid (none equal to the fill value or the saturation value) and whose
computed floating-point ratio is not NaN, the output value of every
index function is defined and lies in the interval `[-10000, 10000]`.
(The NaN cases are: a `0/0` ratio for the normalized-difference, SAVI
and EVI formulas, and a negative `sqrt` argument for MSAVI.) -/
theorem C3_output_range_amended :
    (∀ b1 b2 fv sv : ℤ, ¬ (b1 = fv ∨ b2 = fv) → ¬ (b1 = sv ∨ b2 = sv) →
       make_spectral_index_ratio b1 b2 ≠ FP.nan →
       ∃ v, make_spectral_index_pixel b1 b2 fv sv = some v ∧
         -10000 ≤ v ∧ v ≤ 10000) ∧
    (∀ (nir red fv sv : ℤ) (sf : ℚ), ¬ (nir = fv ∨ red = fv) →
       ¬ (nir = sv ∨ red = sv) → make_savi_ratio nir red sf ≠ FP.nan →
       ∃ v, make_savi_pixel nir red sf fv sv = some v ∧ -10000 ≤ v ∧ v ≤ 10000) ∧
    (∀ (nir red fv sv : ℤ) (sf : ℚ), ¬ (nir = fv ∨ red = fv) →
       ¬ (nir = sv ∨ red = sv) → make_modified_savi_ratio nir red sf ≠ FP.nan →
       ∃ v, make_modified_savi_pixel nir red sf fv sv = some v ∧
         -10000 ≤ v ∧ v ≤ 10000) ∧
    (∀ (nir red blue fv sv : ℤ) (sf : ℚ), ¬ (nir = fv ∨ red = fv ∨ blue = fv) →
       ¬ (nir = sv ∨ red = sv ∨ blue = sv) → make_evi_ratio nir red blue sf ≠ FP.nan →
       ∃ v, make_evi_pixel nir red blue sf fv sv = some v ∧
         -10000 ≤ v ∧ v ≤ 10000) := by
  refine ⟨?_, ?_, ?_, ?_⟩
  · intro b1 b2 fv sv h1 h2 hnan
    rw [make_spectral_index_pixel_valid h1 h2]
    exact quantFP_clampFP_range _ hnan
  · intro nir red fv sv sf h1 h2 hnan
    rw [make_savi_pixel_valid h1 h2]
    exact quantFP_clampFP_range _ hnan
  · intro nir red fv sv sf h1 h2 hnan
    rw [make_modified_savi_pixel_valid h1 h2]
    exact quantFP_clampFP_range _ hnan
  · intro nir red blue fv sv sf h1 h2 hnan
    rw [make_evi_pixel_valid h1 h2]
    exact quantFP_clampFP_range _ hnan

/-- Witness for the amended C3 at concrete valid, non-NaN pixels of all
four index functions. -/
theorem C3_output_range_amended_witness :
    (∃ v, make_spectral_index_pixel 5000 3000 (-9999) 20000 = some v ∧
      -10000 ≤ v ∧ v ≤ 10000) ∧
    (∃ v, make_savi_pixel 4000 2000 (1 / 10000) (-9999) 20000 = some v ∧
      -10000 ≤ v ∧ v ≤ 10000) ∧
    (∃ v, make_modified_savi_pixel 4000 2000 (1 / 10000) (-9999) 20000 = some v ∧
      -10000 ≤ v ∧ v ≤ 10000) ∧
    (∃ v, make_evi_pixel 5000 3000 2000 (1 / 10000) (-9999) 20000 = some v ∧
      -10000 ≤ v ∧ v ≤ 10000) :=
  ⟨C3_output_range_amended.1 5000 3000 (-9999) 20000 (by decide) (by decide)
     spectral_ratio_5000_3000_ne_nan,
   C3_output_range_amended.2.1 4000 2000 (-9999) 20000 (1 / 10000) (by decide)
     (by decide) savi_ratio_4000_2000_ne_nan,
   C3_output_range_amended.2.2.1 4000 2000 (-9999) 20000 (1 / 10000) (by decide)
     (by decide) msavi_ratio_4000_2000_ne_nan,
   C3_output_range_amended.2.2.2 5000 3000 2000 (-9999) 20000 (1 / 10000) (by decide)
     (by decide) evi_ratio_5000_3000_2000_ne_nan⟩

/-- Evaluation of the clamp at the C3/C4 scenario ratio `1/4`. -/
lemma spectral_clamp_5000_3000 :
    clampFP (make_spectral_index_ratio 5000 3000) = FP.fin (1 / 4) := by
  rw [spectral_ratio_5000_3000, clampFP, if_neg (by norm_num : ¬ (1 / 4 : ℚ) > 1),
    if_neg (by norm_num : ¬ (1 / 4 : ℚ) < -1)]

/-- C4 counterexample: at the valid SAVI pixel `nir = red = -2500` with
`scale_factor = 0.0001` the computed ratio is `0/0` (NaN): the clamp
does not produce any number of `[-1, 1]` and nothing is quantized — the
output is undefined instead of a rounded value. -/
theorem C4_clamp_quantize_counterexample :
    make_savi_pixel (-2500) (-2500) (1 / 10000) (-9999) 20000 = none ∧
    ¬ ∃ c : ℚ, clampFP (make_savi_ratio (-2500) (-2500) (1 / 10000)) = FP.fin c := by
  constructor
  · rw [make_savi_pixel_valid (by decide) (by decide), savi_ratio_neg2500]
    rfl
  · rintro ⟨c, hc⟩
    rw [savi_ratio_neg2500] at hc
    exact FP.noConfusion hc

/-- C4 (amended): for every valid pixel whose clamped ratio is an actual
number `c` (equivalently, whose raw ratio is not NaN), every index
function outputs exactly the round-half-away-from-zero of `c * 10000`,
where the clamp of a finite raw ratio `q` is the restriction
`max (-1) (min 1 q)` of `q` to `[-1, 1]`: add `0.5` then truncate when
the clamped ratio is non-negative, subtract `0.5` then truncate when it
is negative. -/
theorem C4_clamp_quantize_amended :
    (∀ q : ℚ, clampFP (FP.fin q) = FP.fin (clampSpec q)) ∧
    (∀ b1 b2 fv sv : ℤ, ¬ (b1 = fv ∨ b2 = fv) → ¬ (b1 = sv ∨ b2 = sv) →
       ∀ c : ℚ, clampFP (make_spectral_index_ratio b1 b2) = FP.fin c →
       make_spectral_index_pixel b1 b2 fv sv = some (roundHalfAway (c * 10000))) ∧
    (∀ (nir red fv sv : ℤ) (sf : ℚ), ¬ (nir = fv ∨ red = fv) →
       ¬ (nir = sv ∨ red = sv) →
       ∀ c : ℚ, clampFP (make_savi_ratio nir red sf) = FP.fin c →
       make_savi_pixel nir red sf fv sv = some (roundHalfAway (c * 10000))) ∧
    (∀ (nir red fv sv : ℤ) (sf : ℚ), ¬ (nir = fv ∨ red = fv) →
       ¬ (nir = sv ∨ red = sv) →
       ∀ c : ℝ, clampFP (make_modified_savi_ratio nir red sf) = FP.fin c →
       make_modified_savi_pixel nir red sf fv sv = some (roundHalfAway (c * 10000))) ∧
    (∀ (nir red blue fv sv : ℤ) (sf : ℚ), ¬ (nir = fv ∨ red = fv ∨ blue = fv) →
       ¬ (nir = sv ∨ red = sv ∨ blue = sv) →
       ∀ c : ℚ, clampFP (make_evi_ratio nir red blue sf) = FP.fin c →
       make_evi_pixel nir red blue sf fv sv = some (roundHalfAway (c * 10000))) := by
  refine ⟨clampFP_fin_clampSpec, ?_, ?_, ?_, ?_⟩
  · intro b1 b2 fv sv h1 h2 c hc
    rw [make_spectral_index_pixel_valid h1 h2, hc, quantFP_fin_roundHalfAway]
  · intro nir red fv sv sf h1 h2 c hc
    rw [make_savi_pixel_valid h1 h2, hc, quantFP_fin_roundHalfAway]
  · intro nir red fv sv sf h1 h2 c hc
    rw [make_modified_savi_pixel_valid h1 h2, hc, quantFP_fin_roundHalfAway]
  · intro nir red blue fv sv sf h1 h2 c hc
    rw [make_evi_pixel_valid h1 h2, hc, quantFP_fin_roundHalfAway]

/-- Witness for the amended C4: the scenario pixel `nir = 5000`,
`red = 3000` has clamped ratio `1/4` and the output is the
round-half-away-from-zero of `2500`, namely `2500`. -/
theorem C4_clamp_quantize_amended_witness :
    make_spectral_index_pixel 5000 3000 (-9999) 20000 =
      some (roundHalfAway ((1 / 4 : ℚ) * 10000)) ∧
    roundHalfAway ((1 / 4 : ℚ) * 10000) = 2500 :=
  ⟨C4_clamp_quantize_amended.2.1 5000 3000 (-9999) 20000 (by decide) (by decide)
     (1 / 4) spectral_clamp_5000_3000,
   by norm_num [roundHalfAway]⟩

/-- Concrete evaluation of the C5 scenario: `nir = 4000`, `red = 2000`,
`scale_factor = 0.0001` under SAVI gives `(0.2 / 1.1) * 1.5 = 3/11` and
the quantized output `⌊30000/11 + 1/2⌋ = 2727`. -/
lemma savi_pixel_4000_2000_eval :
    make_savi_pixel 4000 2000 (1 / 10000) (-9999) 20000 = some 2727 := by
  rw [make_savi_pixel_valid (by decide) (by decide), savi_ratio_4000_2000]
  rw [clampFP, if_neg (by norm_num : ¬ (3 / 11 : ℚ) > 1),
    if_neg (by norm_num : ¬ (3 / 11 : ℚ) < -1), quantFP,
    if_pos (by norm_num : (0 : ℚ) ≤ 3 / 11)]
  norm_num [ftrunc]

/-- C5 counterexample: the spec scenario value `3000` is wrong — the
spec's own arithmetic dropped the denominator `0.4 + 0.2 + 0.5 = 1.1`
(it reads `0.2 * 1.5 = 0.3`, but the formula gives
`(0.2 / 1.1) * 1.5 = 3/11 ≈ 0.2727`), so `make_savi` outputs `2727`,
not `3000`. -/
theorem C5_savi_scenario_counterexample :
    make_savi_pixel 4000 2000 (1 / 10000) (-9999) 20000 ≠ some 3000 := by
  rw [savi_pixel_4000_2000_eval]
  decide

/-- C5 (amended): for the valid input pixel `nir = 4000`, `red = 2000`
with `scale_factor = 0.0001`, `make_savi` unscales both bands to `0.4`
and `0.2` and computes `((nir - red) / (nir + red + 0.5)) * 1.5 = 3/11`
before quantization, and therefore outputs exactly `2727` (not `3000`
as the spec's scenario miscalculates). -/
theorem C5_savi_scenario_amended :
    make_savi_pixel 4000 2000 (1 / 10000) (-9999) 20000 = some 2727 ∧
    make_savi_ratio 4000 2000 (1 / 10000) =
      FP.fin ((((2 : ℚ) / 5 - 1 / 5) / ((2 : ℚ) / 5 + 1 / 5 + 1 / 2)) * (3 / 2)) := by
  refine ⟨savi_pixel_4000_2000_eval, ?_⟩
  rw [savi_ratio_4000_2000]
  norm_num

/-- C6: for every pair of distinct valid digital numbers `A` and `B`
(neither equal to the fill or saturation value), the
normalized-difference index with `band1 = B`, `band2 = A` equals the
negation of the index with `band1 = A`, `band2 = B`: swapping the two
input bands of `make_spectral_index` negates its output. -/
theorem C6_spectral_index_antisymm :
    ∀ A B fv sv : ℤ, A ≠ B → A ≠ fv → A ≠ sv → B ≠ fv → B ≠ sv →
      make_spectral_index_pixel B A fv sv =
        (make_spectral_index_pixel A B fv sv).map (fun v => -v) := by
  intro A B fv sv _ hAf hAs hBf hBs
  rw [make_spectral_index_pixel_valid (not_or.mpr ⟨hBf, hAf⟩) (not_or.mpr ⟨hBs, hAs⟩),
    make_spectral_index_pixel_valid (not_or.mpr ⟨hAf, hBf⟩) (not_or.mpr ⟨hAs, hBs⟩)]
  have hr : make_spectral_index_ratio B A = fneg (make_spectral_index_ratio A B) := by
    rw [make_spectral_index_ratio, make_spectral_index_ratio,
      show ((B : ℚ) - (A : ℚ)) = -((A : ℚ) - (B : ℚ)) from by ring,
      show ((B : ℚ) + (A : ℚ)) = ((A : ℚ) + (B : ℚ)) from by ring, fdiv_neg]
  rw [hr, clampFP_fneg, quantFP_fneg]

/-- Witness for C6 at the scenario bands `A = 5000`, `B = 3000`
(`NDVI(5000, 3000) = 2500`, so `NDVI(3000, 5000) = -2500`). -/
theorem C6_spectral_index_antisymm_witness :
    make_spectral_index_pixel 3000 5000 (-9999) 20000 =
      (make_spectral_index_pixel 5000 3000 (-9999) 20000).map (fun v => -v) :=
  C6_spectral_index_antisymm 5000 3000 (-9999) 20000 (by decide) (by decide)
    (by decide) (by decide) (by decide)

/-- C7: the pipeline driver iterates line blocks in strictly increasing
offset order in steps of `PROC_NLINES = 1000` lines with the last block
truncated to the remaining lines.  Concretely, an image of height 2500
produces exactly the three blocks `(0, 1000)`, `(1000, 1000)`,
`(2000, 500)` (one read call per input band and one write call per
output band for each block); in general the blocks tile `[0, nlines)`
with no gaps or overlaps, every block offset is a multiple of 1000, and
every block height is `min 1000 (nlines - offset)`. -/
theorem C7_block_iteration :
    si_blocks 2500 = [(0, 1000), (1000, 1000), (2000, 500)] ∧
    (∀ nlines : ℕ, tiles 0 nlines (si_blocks nlines)) ∧
    (∀ nlines o h : ℕ, (o, h) ∈ si_blocks nlines →
       PROC_NLINES ∣ o ∧ h = min PROC_NLINES (nlines - o)) := by
  refine ⟨by decide, ?_, ?_⟩
  · intro nlines
    exact si_block_loop_tiles nlines 0 nlines (Nat.zero_le nlines)
      (by simp only [PROC_NLINES]; omega)
  · intro nlines o h hmem
    exact si_block_loop_mem nlines 0 nlines o h (dvd_zero _) hmem

/-- Witness for C7: the truncated last block of the height-2500 image
is a member of the block list and satisfies the general shape facts. -/
theorem C7_block_iteration_witness :
    tiles 0 2500 (si_blocks 2500) ∧
    ((2000, 500) ∈ si_blocks 2500 ∧
      PROC_NLINES ∣ 2000 ∧ 500 = min PROC_NLINES (2500 - 2000)) :=
  ⟨C7_block_iteration.2.1 2500,
   by decide,
   C7_block_iteration.2.2 2500 2000 500 (by decide)⟩

/-- C8: every call to `put_output_line` whose line offset plus number
of lines exceeds the declared image height (fixed in `size.l` at open
time), or whose band index lies outside `[0, nband)`, returns `ERROR`
before reaching the `SDwritedata` call — no write is performed (the
`Except.error` result of the embedding carries no written slab). -/
theorem C8_put_output_line_bounds :
    ∀ (this : Output_t) (iband iline nlines : ℤ),
      (this.nlines < iline + nlines ∨ iband < 0 ∨ this.nband ≤ iband) →
      ∃ msg, put_output_line this iband iline nlines = Except.error msg := by
  intro th iband iline nlines h
  rw [put_output_line]
  by_cases h1 : th.opened = false
  · rw [if_pos h1]
    exact ⟨_, rfl⟩
  · rw [if_neg h1]
    by_cases h2 : iband < 0 ∨ th.nband ≤ iband
    · rw [if_pos h2]
      exact ⟨_, rfl⟩
    · rw [if_neg h2]
      have hline : th.nlines < iline + nlines := by tauto
      by_cases h3 : iline < 0 ∨ th.nlines ≤ iline
      · rw [if_pos h3]
        exact ⟨_, rfl⟩
      · rw [if_neg h3, if_pos (Or.inr hline)]
        exact ⟨_, rfl⟩

/-- Witness for C8: an open 100-line, one-band output; writing 50 lines
at offset 60 (60 + 50 > 100) fails. -/
theorem C8_put_output_line_bounds_witness :
    ∃ msg, put_output_line ⟨true, 1, 100, 50⟩ 0 60 50 = Except.error msg :=
  C8_put_output_line_bounds ⟨true, 1, 100, 50⟩ 0 60 50 (Or.inl (by decide))

/-- A successful raw-binary read returns exactly the requested number of
elements. -/
lemma read_raw_binary_length (s : List ℤ) (pos count : ℕ) (buf : List ℤ)
    (h : read_raw_binary s pos count = some buf) : buf.length = count := by
  rw [read_raw_binary] at h
  by_cases hc : ((s.drop pos).take count).length = count
  · rw [if_pos hc] at h
    injection h with h
    rw [← h]
    exact hc
  · rw [if_neg hc] at h
    exact Option.noConfusion h

/-- C9: every call to `get_input_refl_lines` with a band index outside
`[0, nrefl_band)` or a starting line offset outside `[0, nlines)`
returns `ERROR` before any seek or read — the `Except.error` result of
the embedding carries no data; and a read either fills the full
requested slab of `nlines * nsamps` samples or the call fails, with no
partial-block success. -/
theorem C9_get_input_refl_lines_bounds :
    (∀ (this : Input_t) (iband iline nlines : ℤ),
       (iband < 0 ∨ this.nrefl_band ≤ iband ∨ iline < 0 ∨ this.nlines ≤ iline) →
       ∃ msg, get_input_refl_lines this iband iline nlines = Except.error msg) ∧
    (∀ (this : Input_t) (iband iline nlines : ℤ) (buf : List ℤ),
       get_input_refl_lines this iband iline nlines = Except.ok buf →
       buf.length = (nlines * this.nsamps).toNat) := by
  constructor
  · intro th iband iline nlines h
    rw [get_input_refl_lines]
    by_cases h1 : th.refl_open = false
    · rw [if_pos h1]
      exact ⟨_, rfl⟩
    · rw [if_neg h1]
      by_cases h2 : iband < 0 ∨ th.nrefl_band ≤ iband
      · rw [if_pos h2]
        exact ⟨_, rfl⟩
      · rw [if_neg h2]
        have h3 : iline < 0 ∨ th.nlines ≤ iline := by tauto
        rw [if_pos h3]
        exact ⟨_, rfl⟩
  · intro th iband iline nlines buf h
    rw [get_input_refl_lines] at h
    by_cases h1 : th.refl_open = false
    · rw [if_pos h1] at h
      exact Except.noConfusion h
    · rw [if_neg h1] at h
      by_cases h2 : iband < 0 ∨ th.nrefl_band ≤ iband
      · rw [if_pos h2] at h
        exact Except.noConfusion h
      · rw [if_neg h2] at h
        by_cases h3 : iline < 0 ∨ th.nlines ≤ iline
        · rw [if_pos h3] at h
          exact Except.noConfusion h
        · rw [if_neg h3] at h
          rcases hr : read_raw_binary (th.fp_bin iband) (iline * th.nsamps).toNat
              (nlines * th.nsamps).toNat with _ | b
          · rw [hr] at h
            exact Except.noConfusion h
          · rw [hr] at h
            injection h with h
            rw [← h]
            exact read_raw_binary_length _ _ _ _ hr

/-- Witness for C9: a band index `7` outside `[0, 6)` fails, and a
successful read of 2 lines of 2 samples from a 4-sample band file
returns all `2 * 2` samples. -/
theorem C9_get_input_refl_lines_bounds_witness :
    (∃ msg, get_input_refl_lines ⟨true, 6, 100, 10, fun _ => []⟩ 7 0 10 =
      Except.error msg) ∧
    ([(1 : ℤ), 2, 3, 4].length = (((2 : ℤ) * 2).toNat)) :=
  ⟨C9_get_input_refl_lines_bounds.1 ⟨true, 6, 100, 10, fun _ => []⟩ 7 0 10
     (Or.inr (Or.inl (by decide))),
   C9_get_input_refl_lines_bounds.2 ⟨true, 1, 2, 2, fun _ => [1, 2, 3, 4]⟩ 0 0 2
     [1, 2, 3, 4] rfl⟩

/-- C10: every index function writes only to its output array — the
input band arrays come back unchanged — and position `p` of the output
array equals the per-pixel function applied to the input band values at
the same position `p` when `p < nlines * nsamps` (so each output element
depends only on the same-position input values), while positions outside
the processed range keep their previous content. -/
theorem C10_frame_effect :
    (∀ (band1 band2 : ℕ → ℤ) (fv sv : ℤ) (nl ns : ℕ) (out : ℕ → Option ℤ),
       (make_spectral_index band1 band2 fv sv nl ns out).1 = band1 ∧
       (make_spectral_index band1 band2 fv sv nl ns out).2.1 = band2 ∧
       ∀ p, (make_spectral_index band1 band2 fv sv nl ns out).2.2 p =
         if p < nl * ns then make_spectral_index_pixel (band1 p) (band2 p) fv sv
         else out p) ∧
    (∀ (nir red : ℕ → ℤ) (sf : ℚ) (fv sv : ℤ) (nl ns : ℕ) (out : ℕ → Option ℤ),
       (make_savi nir red sf fv sv nl ns out).1 = nir ∧
       (make_savi nir red sf fv sv nl ns out).2.1 = red ∧
       ∀ p, (make_savi nir red sf fv sv nl ns out).2.2 p =
         if p < nl * ns then make_savi_pixel (nir p) (red p) sf fv sv else out p) ∧
    (∀ (nir red : ℕ → ℤ) (sf : ℚ) (fv sv : ℤ) (nl ns : ℕ) (out : ℕ → Option ℤ),
       (make_modified_savi nir red sf fv sv nl ns out).1 = nir ∧
       (make_modified_savi nir red sf fv sv nl ns out).2.1 = red ∧
       ∀ p, (make_modified_savi nir red sf fv sv nl ns out).2.2 p =
         if p < nl * ns then make_modified_savi_pixel (nir p) (red p) sf fv sv
         else out p) ∧
    (∀ (nir red blue : ℕ → ℤ) (sf : ℚ) (fv sv : ℤ) (nl ns : ℕ) (out : ℕ → Option ℤ),
       (make_evi nir red blue sf fv sv nl ns out).1 = nir ∧
       (make_evi nir red blue sf fv sv nl ns out).2.1 = red ∧
       (make_evi nir red blue sf fv sv nl ns out).2.2.1 = blue ∧
       ∀ p, (make_evi nir red blue sf fv sv nl ns out).2.2.2 p =
         if p < nl * ns then make_evi_pixel (nir p) (red p) (blue p) sf fv sv
         else out p) := by
  refine ⟨?_, ?_, ?_, ?_⟩
  · intro band1 band2 fv sv nl ns out
    exact ⟨rfl, rfl, fun p => write_loop_eq _ _ _ p⟩
  · intro nir red sf fv sv nl ns out
    exact ⟨rfl, rfl, fun p => write_loop_eq _ _ _ p⟩
  · intro nir red sf fv sv nl ns out
    exact ⟨rfl, rfl, fun p => write_loop_eq _ _ _ p⟩
  · intro nir red blue sf fv sv nl ns out
    exact ⟨rfl, rfl, rfl, fun p => write_loop_eq _ _ _ p⟩
